import Mathlib

/-!
Verification of the Phase III AI-chatbot backend of the evolution-of-todo
repository: a shallow embedding in Lean 4 of the MCP tool handlers
(backend/src/mcp_tools), the tool registry and dispatcher
(backend/src/mcp/mcp_server.py), the agent turn controller
(backend/src/agent.py), the registration wrapper (backend/src/main.py) and
the chat endpoint with its rate limiter (backend/src/routes/chat.py).

Machine integers are modelled as Int (ids, user ids), timestamps as Nat
(seconds).  The database is modelled as an explicit task store
(a list of task rows) passed through every operation; the SQLAlchemy
session of the chat endpoint is modelled as committed state plus the
rollback/commit discipline of the source.  Fallible code returns tagged
results exactly as the Python handlers do.
-/

/-- Task row as declared in backend/src/models.py (class Task): id is the
primary key, user_id a nullable foreign key, timestamps are Nat. -/
structure TaskRow where
  id : Int
  user_id : Option Int
  title : String
  description : Option String
  completed : Bool
  priority : String
  category : Option String
  due_date : Option Nat
  created_at : Nat
  updated_at : Nat
deriving DecidableEq, Repr

/-- The task store (the rows of the task table). -/
abbrev Store := List TaskRow

/-- Execution context built per tool call in agent.py: user_id comes from
context.get("user_id") and may be absent; now models the wall clock used
for updated_at. -/
structure Ctx where
  user_id : Option Int
  request_id : String
  now : Nat
deriving DecidableEq, Repr

/-- The "Authentication required" error string shared by every handler. -/
def authRequiredMsg : String := "Authentication required: user_id not found in context"

/-- The not-found/denied error of complete_task, delete_task and
update_task: f"Task {task_id} not found or access denied". -/
def notFoundMsg (tid : Int) : String := s!"Task {tid} not found or access denied"

/-- The update_task error when no mutable field is supplied. -/
def atLeastOneFieldMsg : String :=
  "At least one field (title, description, priority, category, due_date) must be provided"

/-- Replace the first row satisfying p by f of it: the SQLAlchemy commit of
the single row fetched by scalar_one_or_none (ids are the primary key, so
at most one row matches an (id, user_id) predicate). -/
def updateFirst (p : TaskRow → Bool) (f : TaskRow → TaskRow) : Store → Store
  | [] => []
  | t :: ts => if p t then f t :: ts else t :: updateFirst p f ts

/-- Input of complete_task (CompleteTaskInput): both fields required. -/
structure CompleteTaskInput where
  task_id : Int
  completed : Bool
deriving DecidableEq, Repr

/-- The task dict complete_task returns on success (id, title, completed,
updated_at). -/
structure CompleteTaskView where
  id : Int
  title : String
  completed : Bool
  updated_at : Nat
deriving DecidableEq, Repr

/-- Output of complete_task (CompleteTaskOutput). -/
structure CompleteTaskOutput where
  success : Bool
  task : Option CompleteTaskView := none
  error : Option String := none
deriving DecidableEq, Repr

/-- mcp_tools/complete_task.py: authenticate, fetch by (id, user_id) in one
lookup, flip the completed flag, refresh updated_at. -/
def complete_task (input : CompleteTaskInput) (ctx : Ctx) (now : Nat) (store : Store) :
    CompleteTaskOutput × Store :=
  match ctx.user_id with
  | none => ({ success := false, error := some authRequiredMsg }, store)
  | some uid =>
    if uid = 0 then ({ success := false, error := some authRequiredMsg }, store)
    else
      match store.find? (fun t => t.id == input.task_id && t.user_id == some uid) with
      | none => ({ success := false, error := some (notFoundMsg input.task_id) }, store)
      | some t =>
        ({ success := true,
           task := some { id := t.id, title := t.title, completed := input.completed,
                          updated_at := now } },
         updateFirst (fun r => r.id == input.task_id && r.user_id == some uid)
           (fun r => { r with completed := input.completed, updated_at := now }) store)

/-- Input of delete_task (DeleteTaskInput). -/
structure DeleteTaskInput where
  task_id : Int
deriving DecidableEq, Repr

/-- Output of delete_task (DeleteTaskOutput). -/
structure DeleteTaskOutput where
  success : Bool
  message : Option String := none
  deleted_task_id : Option Int := none
  error : Option String := none
deriving DecidableEq, Repr

/-- mcp_tools/delete_task.py: authenticate, fetch by (id, user_id), delete
the fetched row. -/
def delete_task (input : DeleteTaskInput) (ctx : Ctx) (store : Store) :
    DeleteTaskOutput × Store :=
  match ctx.user_id with
  | none => ({ success := false, error := some authRequiredMsg }, store)
  | some uid =>
    if uid = 0 then ({ success := false, error := some authRequiredMsg }, store)
    else
      match store.find? (fun t => t.id == input.task_id && t.user_id == some uid) with
      | none => ({ success := false, error := some (notFoundMsg input.task_id) }, store)
      | some _ =>
        ({ success := true,
           message := some s!"Task {input.task_id} deleted successfully",
           deleted_task_id := some input.task_id },
         store.eraseP (fun t => t.id == input.task_id && t.user_id == some uid))

/-- Input of update_task (UpdateTaskInput) after pydantic validation:
title stripped and within 1..200 chars, priority/category lowercased and
in their enums, due_date strictly in the future. -/
structure UpdateTaskInput where
  task_id : Int
  title : Option String := none
  description : Option String := none
  priority : Option String := none
  category : Option String := none
  due_date : Option Nat := none
deriving DecidableEq, Repr

/-- all(v is None for the five mutable fields) of update_task. -/
def allFieldsNone (input : UpdateTaskInput) : Bool :=
  input.title.isNone && input.description.isNone && input.priority.isNone
    && input.category.isNone && input.due_date.isNone

/-- The per-field assignments of update_task: a field is written only when
the input supplies it; updated_at is always refreshed. -/
def applyUpdate (input : UpdateTaskInput) (now : Nat) (t : TaskRow) : TaskRow :=
  { t with
    title := input.title.getD t.title
    description := match input.description with
      | some d => some d
      | none => t.description
    priority := input.priority.getD t.priority
    category := match input.category with
      | some c => some c
      | none => t.category
    due_date := match input.due_date with
      | some d => some d
      | none => t.due_date
    updated_at := now }

/-- The task dict update_task returns on success (all ten fields). -/
structure UpdateTaskView where
  id : Int
  title : String
  description : Option String
  priority : String
  category : Option String
  completed : Bool
  due_date : Option Nat
  created_at : Nat
  updated_at : Nat
  user_id : Option Int
deriving DecidableEq, Repr

/-- Project a task row into the dict returned by update_task. -/
def toUpdateView (t : TaskRow) : UpdateTaskView :=
  { id := t.id, title := t.title, description := t.description, priority := t.priority,
    category := t.category, completed := t.completed, due_date := t.due_date,
    created_at := t.created_at, updated_at := t.updated_at, user_id := t.user_id }

/-- Output of update_task (UpdateTaskOutput). -/
structure UpdateTaskOutput where
  success : Bool
  task : Option UpdateTaskView := none
  error : Option String := none
deriving DecidableEq, Repr

/-- mcp_tools/update_task.py: authenticate, require at least one mutable
field, fetch by (id, user_id), write only the supplied fields, refresh
updated_at. -/
def update_task (input : UpdateTaskInput) (ctx : Ctx) (now : Nat) (store : Store) :
    UpdateTaskOutput × Store :=
  match ctx.user_id with
  | none => ({ success := false, error := some authRequiredMsg }, store)
  | some uid =>
    if uid = 0 then ({ success := false, error := some authRequiredMsg }, store)
    else if allFieldsNone input then
      ({ success := false, error := some atLeastOneFieldMsg }, store)
    else
      match store.find? (fun t => t.id == input.task_id && t.user_id == some uid) with
      | none => ({ success := false, error := some (notFoundMsg input.task_id) }, store)
      | some t =>
        ({ success := true, task := some (toUpdateView (applyUpdate input now t)) },
         updateFirst (fun r => r.id == input.task_id && r.user_id == some uid)
           (applyUpdate input now) store)

/-- Input of list_tasks (ListTasksInput): status is a Literal over
all/complete/incomplete, limit is constrained to [1,100] (default 50),
offset is non-negative (default 0). -/
structure ListTasksInput where
  status : String := "all"
  limit : Nat := 50
  offset : Nat := 0
deriving DecidableEq, Repr

/-- The task dict of each list_tasks entry. -/
structure TaskOut where
  id : Int
  title : String
  description : Option String
  completed : Bool
  due_date : Option Nat
  created_at : Nat
  updated_at : Nat
deriving DecidableEq, Repr

/-- Project a task row into the dict list_tasks returns. -/
def toTaskOut (t : TaskRow) : TaskOut :=
  { id := t.id, title := t.title, description := t.description, completed := t.completed,
    due_date := t.due_date, created_at := t.created_at, updated_at := t.updated_at }

/-- The WHERE Task.user_id == user_id filter of the list_tasks query. -/
def userTasks (store : Store) (uid : Int) : List TaskRow :=
  store.filter (fun t => t.user_id == some uid)

/-- The status filter chained onto the query: complete keeps completed
rows, incomplete keeps the rest, anything else adds no filter. -/
def statusFiltered (l : List TaskRow) (status : String) : List TaskRow :=
  if status = "complete" then l.filter (fun t => t.completed)
  else if status = "incomplete" then l.filter (fun t => !t.completed)
  else l

/-- The rows matching the user and status filters, before pagination. -/
def matchingTasks (store : Store) (uid : Int) (status : String) : List TaskRow :=
  statusFiltered (userTasks store uid) status

/-- ORDER BY created_at DESC. -/
def createdDesc (a b : TaskRow) : Prop := b.created_at ≤ a.created_at

instance : DecidableRel createdDesc := fun a b => Nat.decLe b.created_at a.created_at

instance : IsTotal TaskRow createdDesc := ⟨fun a b => Nat.le_total b.created_at a.created_at⟩

instance : IsTrans TaskRow createdDesc := ⟨fun _ _ _ h1 h2 => Nat.le_trans h2 h1⟩

/-- Output of list_tasks (ListTasksOutput). -/
structure ListTasksOutput where
  success : Bool
  tasks : Option (List TaskOut) := none
  total : Option Nat := none
  offset : Option Nat := none
  limit : Option Nat := none
  error : Option String := none
deriving DecidableEq, Repr

/-- mcp_tools/list_tasks.py: authenticate, filter by user and status, count
the matches before pagination, order newest-created-first, then apply
offset and limit.  The query never mutates the store. -/
def list_tasks (input : ListTasksInput) (ctx : Ctx) (store : Store) : ListTasksOutput :=
  match ctx.user_id with
  | none => { success := false, error := some authRequiredMsg }
  | some uid =>
    if uid = 0 then { success := false, error := some authRequiredMsg }
    else
      let matching := matchingTasks store uid input.status
      let page := ((List.insertionSort createdDesc matching).drop input.offset).take input.limit
      { success := true, tasks := some (page.map toTaskOut), total := some matching.length,
        offset := some input.offset, limit := some input.limit }

/-- The raw JSON argument dict handed to a tool handler, restricted to the
fields of the tools modelled here; every field may be absent. -/
structure ArgsDict where
  task_id : Option Int := none
  completed : Option Bool := none
deriving DecidableEq, Repr

/-- The dict a registered handler (res.model_dump()) hands back through the
dispatcher, restricted to the fields the claims inspect. -/
structure ToolResult where
  success : Bool
  error : Option String := none
  task : Option CompleteTaskView := none
deriving DecidableEq, Repr

/-- A registered handler: it threads the task store and may either return a
result or raise (Except.error carries str(e) of the exception). -/
abbrev Handler := ArgsDict → Ctx → Store → Except String ToolResult × Store

/-- One entry of MCPToolRegistry._tools. -/
structure ToolEntry where
  name : String
  description : String
  input_schema : String
  handler : Handler

/-- MCPToolRegistry._tools: a Python dict, name to entry, in insertion
order. -/
abbrev Registry := List (String × ToolEntry)

/-- MCPToolRegistry.register_tool: dict assignment self._tools[name] = entry
— overwrite in place when the name exists, append otherwise. -/
def register_tool : Registry → String → String → String → Handler → Registry
  | [], name, d, s, h => [(name, ⟨name, d, s, h⟩)]
  | (n, e) :: rest, name, d, s, h =>
    if n = name then (n, ⟨name, d, s, h⟩) :: rest
    else (n, e) :: register_tool rest name d s h

/-- MCPToolRegistry.get_tool: self._tools.get(name). -/
def get_tool (reg : Registry) (name : String) : Option ToolEntry :=
  (reg.find? (fun p => p.1 == name)).map (fun p => p.2)

/-- MCPToolRegistry.tool_count: len(self._tools). -/
def tool_count (reg : Registry) : Nat := reg.length

/-- MCPToolRegistry.list_tool_names: list(self._tools.keys()). -/
def list_tool_names (reg : Registry) : List String := reg.map (fun p => p.1)

/-- MCPToolRegistry.execute_tool: look the handler up; if absent return a
"tool not found" failure; otherwise run it and convert any exception it
lets propagate into a failure carrying the exception's message.  The
dispatcher itself never raises. -/
def execute_tool (reg : Registry) (tool_name : String) (arguments : ArgsDict) (ctx : Ctx)
    (store : Store) : ToolResult × Store :=
  match get_tool reg tool_name with
  | none =>
    ({ success := false, error := some ("Tool \x27" ++ tool_name ++ "\x27 not found") }, store)
  | some tool =>
    match tool.handler arguments ctx store with
    | (.ok r, store') => (r, store')
    | (.error e, store') =>
      ({ success := false, error := some ("Tool execution failed: " ++ e) }, store')

/-- tool_wrapper of main.py specialised to complete_task: validate the raw
argument dict against CompleteTaskInput (both fields required); on
validation failure return the structured "Invalid input: ..." failure
without touching the store; otherwise run the handler.  The wrapper never
raises. -/
def complete_task_wrapper (now : Nat) : Handler := fun args ctx store =>
  match args.task_id, args.completed with
  | some tid, some c =>
    let (out, store') := complete_task { task_id := tid, completed := c } ctx now store
    (.ok { success := out.success, error := out.error, task := out.task }, store')
  | _, _ =>
    (.ok { success := false, error := some ("Invalid input: " ++ "Field required") }, store)

/-- A tool call requested by the reasoning engine: rawArguments is none
when json.loads of function.arguments fails (JSONDecodeError). -/
structure ToolCallReq where
  id : String
  name : String
  rawArguments : Option ArgsDict
deriving DecidableEq, Repr

/-- One entry of the tool-call audit list ({tool_name, result}). -/
structure AuditEntry where
  tool_name : String
  result : ToolResult
deriving DecidableEq, Repr

/-- A chat-completions response: textual content and requested tool calls
(either may be empty). -/
structure LLMResponse where
  content : Option String
  tool_calls : List ToolCallReq
deriving Repr

/-- A message of the list sent to the reasoning engine. -/
inductive ChatMsg where
  | system (content : String)
  | user (content : String)
  | assistant (content : Option String) (tool_calls : List ToolCallReq)
  | tool (tool_call_id : String) (result : ToolResult)
deriving DecidableEq, Repr

/-- First line of the system prompt of agent.py (the remainder of the
instruction text plays no role in any verified property). -/
def SYSTEM_PROMPT : String :=
  "You are a helpful AI assistant that helps users manage their todo tasks through natural conversation."

/-- The execution context agent.py builds per tool call. -/
def mkCtx (user_id : Int) (now : Nat) : Ctx :=
  { user_id := some user_id, request_id := s!"{user_id}_{now}", now := now }

/-- The sequential tool-execution loop of get_agent_response: for each
requested call in order, decode the arguments (an empty dict on decode
failure), dispatch through the registry, and append {tool_name, result}
to the audit list, threading the store. -/
def runToolCalls (reg : Registry) (user_id : Int) (now : Nat) :
    List ToolCallReq → Store → List AuditEntry × Store
  | [], store => ([], store)
  | tc :: rest, store =>
    let args := tc.rawArguments.getD {}
    let (res, store') := execute_tool reg tc.name args (mkCtx user_id now) store
    let (audit, store'') := runToolCalls reg user_id now rest store'
    ({ tool_name := tc.name, result := res } :: audit, store'')

/-- The message list of the second reasoning-engine call: system prompt,
history, the user message, the assistant message recording the requested
calls, then one tool message per result in request order. -/
def agentMessages (conversation_history : List ChatMsg) (user_message : String)
    (am : LLMResponse) (audit : List AuditEntry) : List ChatMsg :=
  [ChatMsg.system SYSTEM_PROMPT] ++ conversation_history ++ [ChatMsg.user user_message]
    ++ [ChatMsg.assistant am.content am.tool_calls]
    ++ List.zipWith (fun (tc : ToolCallReq) (a : AuditEntry) => ChatMsg.tool tc.id a.result)
        am.tool_calls audit

/-- final_message or "..." of agent.py: Python or substitutes the default
for both None and the empty string. -/
def contentOrDefault (c : Option String) : String :=
  match c with
  | none => "I\x27m here to help with your tasks!"
  | some s => if s = "" then "I\x27m here to help with your tasks!" else s

/-- The fixed user-safe apology of the except-branch of
get_agent_response. -/
def apologyMsg : String :=
  "I apologize, but I encountered an error processing your request. Please try again."

/-- The fixed reply when no LLM client is configured. -/
def unavailableMsg : String :=
  "I\x27m unable to process your request right now. Please try again later."

/-- The dict get_agent_response returns. -/
structure AgentResult where
  response : String
  tool_calls : List AuditEntry
  error : Option String
deriving DecidableEq, Repr

/-- agent.py get_agent_response.  The two remote completions are passed as
oracles: firstCall is the first chat completion (Except.error carries
str(e) of a raised exception), secondCall maps the follow-up message list
to the second completion.  When the client is missing the fixed
unavailability result is returned; any oracle error degrades to the fixed
apology with an empty tool_calls list; only the first response's requested
calls are dispatched, sequentially and in order; the second response
contributes nothing but its content. -/
def get_agent_response
    (clientConfigured : Bool)
    (firstCall : Except String LLMResponse)
    (secondCall : List ChatMsg → Except String LLMResponse)
    (reg : Registry) (user_id : Int) (now : Nat)
    (conversation_history : List ChatMsg) (user_message : String)
    (store : Store) : AgentResult × Store :=
  if !clientConfigured then
    ({ response := unavailableMsg, tool_calls := [],
       error := some "LLM API key not configured" }, store)
  else
    match firstCall with
    | .error e => ({ response := apologyMsg, tool_calls := [], error := some e }, store)
    | .ok am =>
      match am.tool_calls with
      | [] => ({ response := contentOrDefault am.content, tool_calls := [], error := none }, store)
      | _ :: _ =>
        let (audit, store') := runToolCalls reg user_id now am.tool_calls store
        match secondCall (agentMessages conversation_history user_message am audit) with
        | .error e => ({ response := apologyMsg, tool_calls := [], error := some e }, store')
        | .ok fin =>
          ({ response := contentOrDefault fin.content, tool_calls := audit, error := none },
           store')

/-- routes/chat.py check_rate_limit, for one user's entry of the
user_rate_limit dict (none models "user_id not in user_rate_limit"): on a
first-ever request record the timestamp; otherwise prune entries older
than 60 seconds, reject when 30 or more remain, else record the new
timestamp.  The Bool is true when the request may proceed. -/
def check_rate_limit (entry : Option (List Nat)) (now : Nat) : Option (List Nat) × Bool :=
  match entry with
  | none => (some [now], true)
  | some ts =>
    let ts' := ts.filter (fun t => decide (now - t < 60))
    if 30 ≤ ts'.length then (some ts', false)
    else (some (ts' ++ [now]), true)

/-- A sequence of chat requests of one user through the rate limiter, in
arrival order; returns the final entry and each request's verdict. -/
def runRequests (entry : Option (List Nat)) : List Nat → Option (List Nat) × List Bool
  | [] => (entry, [])
  | t :: rest =>
    let (e', ok) := check_rate_limit entry t
    let (e'', oks) := runRequests e' rest
    (e'', ok :: oks)

/-- Conversation row (models.py class Conversation; the metadata map is
not modelled, no claim touches it). -/
structure ConvRow where
  id : Int
  user_id : Option Int
  title : String
  created_at : Nat
  updated_at : Nat
deriving DecidableEq, Repr

/-- Message row (models.py class Message; the server-assigned id column is
not modelled, no claim touches it). -/
structure MsgRow where
  conversation_id : Int
  role : String
  content : Option String
  tool_calls : Option (List AuditEntry)
  created_at : Nat
deriving DecidableEq, Repr

/-- The committed database state the chat endpoint touches. -/
structure Db where
  convs : List ConvRow
  msgs : List MsgRow
deriving DecidableEq, Repr

/-- The conversation_id field of the request: absent, an unparseable
string, or a parsed integer. -/
inductive ConvIdParam where
  | missing
  | invalid (raw : String)
  | valid (cid : Int)
deriving DecidableEq, Repr

/-- The outcome of awaiting the agent under asyncio.wait_for: the 30s
deadline fired first, or get_agent_response returned a result. -/
inductive AgentOutcome where
  | timeout
  | completed (r : AgentResult)
deriving DecidableEq, Repr

/-- What the chat endpoint hands the HTTP layer: a ChatResponse, or an
error (BusinessException / HTTPException) with its code and status. -/
inductive ChatOutcome where
  | ok (response : String) (conversation_id : Int) (tool_calls : List AuditEntry)
  | err (error_code : String) (statusCode : Nat) (message : String)
deriving DecidableEq, Repr

/-- Python str.strip() on the underlying character list (request.message
.strip() of chat.py); character-list based so that it evaluates inside the
kernel. -/
def stripChars (l : List Char) : List Char :=
  (((l.dropWhile Char.isWhitespace).reverse).dropWhile Char.isWhitespace).reverse

/-- Python str.strip() of a string. -/
def pyStrip (s : String) : String := ⟨stripChars s.data⟩

/-- The new-conversation title of chat.py: the message when it fits in 200
characters, else the first 197 characters plus "...". -/
def titleOf (mc : String) : String :=
  if mc.length ≤ 200 then mc else mc.take 197 ++ "..."

/-- Replace the first conversation row satisfying p by f of it. -/
def updateFirstConv (p : ConvRow → Bool) (f : ConvRow → ConvRow) : List ConvRow → List ConvRow
  | [] => []
  | c :: cs => if p c then f c :: cs else c :: updateFirstConv p f cs

/-- Steps 5-10 of send_chat_message, once a conversation is resolved: the
user message is added to the session (uncommitted); on timeout or agent
error the exception handler rolls the session back, so the committed
database is unchanged; on success the assistant message is added, the
conversation timestamp bumped, and everything committed at once. -/
def finishTurn (db : Db) (mc : String) (conv : ConvRow) (newConv : Option ConvRow)
    (rl' : Option (List Nat)) (now : Nat) (outcome : AgentOutcome) :
    ChatOutcome × Db × Option (List Nat) :=
  let userMsg : MsgRow :=
    { conversation_id := conv.id, role := "user", content := some mc,
      tool_calls := none, created_at := now }
  match outcome with
  | .timeout =>
    (.err "AGENT_TIMEOUT" 504
      "The AI assistant is taking too long to respond. Please try again later.", db, rl')
  | .completed r =>
    match r.error with
    | some _ =>
      (.err "AGENT_FAILURE" 500
        "The AI assistant encountered an error. Please try a simpler request.", db, rl')
    | none =>
      let assistantMsg : MsgRow :=
        { conversation_id := conv.id, role := "assistant", content := some r.response,
          tool_calls := if r.tool_calls = [] then none else some r.tool_calls,
          created_at := now }
      let convs' := match newConv with
        | some c => db.convs ++ [{ c with updated_at := now }]
        | none => updateFirstConv (fun c => c.id == conv.id)
            (fun c => { c with updated_at := now }) db.convs
      (.ok r.response conv.id r.tool_calls,
       { convs := convs', msgs := db.msgs ++ [userMsg, assistantMsg] }, rl')

/-- routes/chat.py send_chat_message: rate limit, input validation,
conversation resolution (ownership-checked lookup or lazy creation), then
the agent call and the commit/rollback discipline of finishTurn.  rl is
this user's entry of the rate-limit dict; its mutation survives errors
(it is process state, not part of the session).  newConvId is the id the
database would assign to a lazily created conversation. -/
def send_chat_message (db : Db) (uid : Int) (message : String) (convParam : ConvIdParam)
    (rl : Option (List Nat)) (now : Nat) (newConvId : Int)
    (outcome : AgentOutcome) : ChatOutcome × Db × Option (List Nat) :=
  let rlv := check_rate_limit rl now
  if !rlv.2 then
    (.err "RATE_LIMIT_EXCEEDED" 429 "Rate limit exceeded. Please try again after a minute.",
     db, rlv.1)
  else
    let mc := pyStrip message
    if mc = "" then
      (.err "INVALID_INPUT" 400 "Message content cannot be empty or just whitespace", db, rlv.1)
    else
      match convParam with
      | .invalid _ => (.err "INVALID_ID" 400 "Invalid conversation ID format", db, rlv.1)
      | .valid cid =>
        match db.convs.find? (fun c => c.id == cid && c.user_id == some uid) with
        | none => (.err "HTTP_404" 404 "Conversation not found or access denied", db, rlv.1)
        | some conv => finishTurn db mc conv none rlv.1 now outcome
      | .missing =>
        let conv : ConvRow :=
          { id := newConvId, user_id := some uid, title := titleOf mc,
            created_at := now, updated_at := now }
        finishTurn db mc conv (some conv) rlv.1 now outcome

/-! Registry lemmas -/

theorem get_tool_register_self (reg : Registry) (n d s : String) (h : Handler) :
    get_tool (register_tool reg n d s h) n = some ⟨n, d, s, h⟩ := by
  induction reg with
  | nil => simp [register_tool, get_tool]
  | cons p rest ih =>
    by_cases hp : p.1 = n
    · simp [register_tool, hp, get_tool]
    · simp only [register_tool, hp, if_false]
      simp only [get_tool, List.find?_cons] at ih ⊢
      have : (p.1 == n) = false := by simp [hp]
      simp [this, ih]

theorem length_register_of_registered (reg : Registry) (n d s : String) (h : Handler)
    (hmem : get_tool reg n ≠ none) :
    (register_tool reg n d s h).length = reg.length := by
  induction reg with
  | nil => simp [get_tool] at hmem
  | cons p rest ih =>
    by_cases hp : p.1 = n
    · simp [register_tool, hp]
    · have : (p.1 == n) = false := by simp [hp]
      simp only [get_tool, List.find?_cons, this, cond_false] at hmem
      simp only [register_tool, hp, if_false, List.length_cons]
      rw [ih hmem]

/-- C9: registering a tool under an already-registered name overwrites the
prior entry (last-write-wins): tool_count is unchanged from before the
second registration, the registry holds the second entry under that name,
and dispatch by that name runs the second handler. -/
theorem register_tool_overwrite (reg : Registry) (name d1 s1 d2 s2 : String)
    (h1 h2 : Handler) (args : ArgsDict) (ctx : Ctx) (store : Store) :
    tool_count (register_tool (register_tool reg name d1 s1 h1) name d2 s2 h2)
      = tool_count (register_tool reg name d1 s1 h1)
    ∧ get_tool (register_tool (register_tool reg name d1 s1 h1) name d2 s2 h2) name
      = some ⟨name, d2, s2, h2⟩
    ∧ execute_tool (register_tool (register_tool reg name d1 s1 h1) name d2 s2 h2)
        name args ctx store
      = (match h2 args ctx store with
         | (.ok r, st') => (r, st')
         | (.error e, st') =>
           ({ success := false, error := some ("Tool execution failed: " ++ e) }, st')) := by
  refine ⟨?_, get_tool_register_self _ _ _ _ _, ?_⟩
  · exact length_register_of_registered _ _ _ _ _ (by rw [get_tool_register_self]; simp)
  · rw [execute_tool, get_tool_register_self]

/-- C3: registry dispatch is a total function returning a tagged result —
it never raises.  An unregistered name yields success=false with the
"Tool 'name' not found" error; a handler that raises yields success=false
with an error carrying the exception's message. -/
theorem execute_tool_never_raises (reg : Registry) (tool_name : String)
    (arguments : ArgsDict) (ctx : Ctx) (store : Store) :
    (get_tool reg tool_name = none →
      execute_tool reg tool_name arguments ctx store =
        ({ success := false, error := some ("Tool \x27" ++ tool_name ++ "\x27 not found") },
         store))
    ∧ (∀ tool e store', get_tool reg tool_name = some tool →
        tool.handler arguments ctx store = (.error e, store') →
        execute_tool reg tool_name arguments ctx store =
          ({ success := false, error := some ("Tool execution failed: " ++ e) }, store')) := by
  constructor
  · intro h; simp [execute_tool, h]
  · intro tool e store' h hh; simp [execute_tool, h, hh]

def raisingHandler : Handler := fun _ _ st => (.error "kaboom", st)

theorem execute_tool_never_raises_witness :
    execute_tool [] "missing" {} (mkCtx 1 0) []
      = ({ success := false, error := some ("Tool \x27" ++ "missing" ++ "\x27 not found") }, [])
    ∧ execute_tool (register_tool [] "boom" "d" "s" raisingHandler) "boom" {} (mkCtx 1 0) []
      = ({ success := false, error := some ("Tool execution failed: " ++ "kaboom") }, []) :=
  ⟨(execute_tool_never_raises [] "missing" {} (mkCtx 1 0) []).1 rfl,
   (execute_tool_never_raises (register_tool [] "boom" "d" "s" raisingHandler) "boom" {}
      (mkCtx 1 0) []).2 ⟨"boom", "d", "s", raisingHandler⟩ "kaboom" [] rfl rfl⟩

/-! Ownership isolation -/

theorem find_other_owner_none (store : Store) (t : TaskRow) (A B : Int)
    (ht : t ∈ store) (hA : t.user_id = some A) (hBA : B ≠ A)
    (hids : (store.map TaskRow.id).Nodup) :
    store.find? (fun r => r.id == t.id && r.user_id == some B) = none := by
  rw [List.find?_eq_none]
  intro x hx hpx
  rw [Bool.and_eq_true, beq_iff_eq, beq_iff_eq] at hpx
  have hxt : x = t := List.inj_on_of_nodup_map hids hx ht hpx.1
  rw [hxt, hA] at hpx
  exact hBA (Option.some.inj hpx.2).symm

/-- C2: ownership isolation.  For a task t owned by user A and any
authenticated user B ≠ A, complete_task, delete_task and update_task
invoked with t's id under B's context return success=false with exactly
the error a non-existent id produces (the three ops are run both on the
store holding t and on the store with t's id erased, with identical
results), and the store — in particular t and its completed flag — is
unchanged. -/
theorem ownership_isolation (store : Store) (t : TaskRow) (A B : Int) (c : Bool)
    (inp : UpdateTaskInput) (ctxB : Ctx) (now : Nat)
    (ht : t ∈ store) (hA : t.user_id = some A) (hBA : B ≠ A) (hB0 : B ≠ 0)
    (hctx : ctxB.user_id = some B)
    (hids : (store.map TaskRow.id).Nodup)
    (hinp : inp.task_id = t.id) (hfields : allFieldsNone inp = false) :
    complete_task { task_id := t.id, completed := c } ctxB now store
      = ({ success := false, error := some (notFoundMsg t.id) }, store)
    ∧ delete_task { task_id := t.id } ctxB store
      = ({ success := false, error := some (notFoundMsg t.id) }, store)
    ∧ update_task inp ctxB now store
      = ({ success := false, error := some (notFoundMsg t.id) }, store)
    ∧ complete_task { task_id := t.id, completed := c } ctxB now
        (store.eraseP (fun r => r.id == t.id))
      = ({ success := false, error := some (notFoundMsg t.id) },
         store.eraseP (fun r => r.id == t.id))
    ∧ delete_task { task_id := t.id } ctxB (store.eraseP (fun r => r.id == t.id))
      = ({ success := false, error := some (notFoundMsg t.id) },
         store.eraseP (fun r => r.id == t.id))
    ∧ update_task inp ctxB now (store.eraseP (fun r => r.id == t.id))
      = ({ success := false, error := some (notFoundMsg t.id) },
         store.eraseP (fun r => r.id == t.id)) := by
  have hfind : store.find? (fun r => r.id == t.id && r.user_id == some B) = none :=
    find_other_owner_none store t A B ht hA hBA hids
  have herased : (store.eraseP (fun r => r.id == t.id)).find?
      (fun r => r.id == t.id && r.user_id == some B) = none := by
    rw [List.find?_eq_none]
    intro x hx hpx
    have hxs : x ∈ store := (List.eraseP_sublist store).mem hx
    have := List.find?_eq_none.mp hfind x hxs
    exact this hpx
  refine ⟨?_, ?_, ?_, ?_, ?_, ?_⟩
  · simp [complete_task, hctx, hB0, hfind]
  · simp [delete_task, hctx, hB0, hfind]
  · simp [update_task, hctx, hB0, hfields, hinp, hfind]
  · simp [complete_task, hctx, hB0, herased]
  · simp [delete_task, hctx, hB0, herased]
  · simp [update_task, hctx, hB0, hfields, hinp, herased]

def demoTask : TaskRow :=
  { id := 1, user_id := some 1, title := "t", description := none, completed := false,
    priority := "medium", category := none, due_date := none, created_at := 0, updated_at := 0 }

def demoUpdInp : UpdateTaskInput := { task_id := 1, title := some "x" }

theorem ownership_isolation_witness :
    complete_task { task_id := 1, completed := true } (mkCtx 2 5) 7 [demoTask]
      = ({ success := false, error := some (notFoundMsg 1) }, [demoTask]) :=
  (ownership_isolation [demoTask] demoTask 1 2 true demoUpdInp (mkCtx 2 5) 7
    (by simp) rfl (by decide) (by decide) rfl (by simp) rfl (by decide)).1

/-- C8: update_task with all five mutable fields absent fails with the
"at least one field must be provided" error and performs no mutation; a
successful update writes exactly the supplied fields, leaves id, owner,
completed flag, created_at and every unsupplied field unchanged, and
refreshes updated_at. -/
theorem update_task_at_least_one_and_frame (store : Store) (inp : UpdateTaskInput)
    (ctx : Ctx) (uid : Int) (now : Nat) (hctx : ctx.user_id = some uid) (h0 : uid ≠ 0) :
    (allFieldsNone inp = true →
      update_task inp ctx now store
        = ({ success := false, error := some atLeastOneFieldMsg }, store))
  ∧ (∀ t, allFieldsNone inp = false →
      store.find? (fun r => r.id == inp.task_id && r.user_id == some uid) = some t →
      update_task inp ctx now store
        = ({ success := true, task := some (toUpdateView (applyUpdate inp now t)) },
           updateFirst (fun r => r.id == inp.task_id && r.user_id == some uid)
             (applyUpdate inp now) store)
      ∧ (applyUpdate inp now t).completed = t.completed
      ∧ (applyUpdate inp now t).id = t.id
      ∧ (applyUpdate inp now t).user_id = t.user_id
      ∧ (applyUpdate inp now t).created_at = t.created_at
      ∧ (applyUpdate inp now t).updated_at = now
      ∧ (inp.title = none → (applyUpdate inp now t).title = t.title)
      ∧ (∀ x, inp.title = some x → (applyUpdate inp now t).title = x)
      ∧ (inp.description = none → (applyUpdate inp now t).description = t.description)
      ∧ (∀ x, inp.description = some x → (applyUpdate inp now t).description = some x)
      ∧ (inp.priority = none → (applyUpdate inp now t).priority = t.priority)
      ∧ (∀ x, inp.priority = some x → (applyUpdate inp now t).priority = x)
      ∧ (inp.category = none → (applyUpdate inp now t).category = t.category)
      ∧ (∀ x, inp.category = some x → (applyUpdate inp now t).category = some x)
      ∧ (inp.due_date = none → (applyUpdate inp now t).due_date = t.due_date)
      ∧ (∀ x, inp.due_date = some x → (applyUpdate inp now t).due_date = some x)) := by
  constructor
  · intro hall; simp [update_task, hctx, h0, hall]
  · intro t hsome hfind
    refine ⟨by simp [update_task, hctx, h0, hsome, hfind], rfl, rfl, rfl, rfl, rfl,
      ?_, ?_, ?_, ?_, ?_, ?_, ?_, ?_, ?_, ?_⟩
    all_goals first
      | (intro h; simp [applyUpdate, h])
      | (intro x h; simp [applyUpdate, h])

theorem update_task_at_least_one_and_frame_witness :
    update_task { task_id := 1 } (mkCtx 1 5) 7 [demoTask]
      = ({ success := false, error := some atLeastOneFieldMsg }, [demoTask])
    ∧ update_task demoUpdInp (mkCtx 1 5) 7 [demoTask]
      = ({ success := true, task := some (toUpdateView (applyUpdate demoUpdInp 7 demoTask)) },
         updateFirst (fun r => r.id == demoUpdInp.task_id && r.user_id == some 1)
           (applyUpdate demoUpdInp 7) [demoTask]) :=
  ⟨(update_task_at_least_one_and_frame [demoTask] { task_id := 1 } (mkCtx 1 5) 1 7 rfl
      (by decide)).1 rfl,
   ((update_task_at_least_one_and_frame [demoTask] demoUpdInp (mkCtx 1 5) 1 7 rfl
      (by decide)).2 demoTask (by decide) (by decide)).1⟩

/-- C5: list_tasks pagination law.  For an authenticated user, any valid
status filter and limit in [1,100]: success=true with no error; total is
the count of the user's rows matching the filter, invariant across every
(limit, offset) page; the returned page has length
min(limit, max(0, total-offset)) and is ordered newest-created-first; an
empty match yields an empty list, not an error. -/
theorem list_tasks_pagination (store : Store) (inp : ListTasksInput) (ctx : Ctx) (uid : Int)
    (hctx : ctx.user_id = some uid) (h0 : uid ≠ 0)
    (hstatus : inp.status = "all" ∨ inp.status = "complete" ∨ inp.status = "incomplete")
    (hlim1 : 1 ≤ inp.limit) (hlim2 : inp.limit ≤ 100) :
    (list_tasks inp ctx store).success = true
  ∧ (list_tasks inp ctx store).error = none
  ∧ (list_tasks inp ctx store).total = some (matchingTasks store uid inp.status).length
  ∧ (∀ l' o', (list_tasks { inp with limit := l', offset := o' } ctx store).total
        = (list_tasks inp ctx store).total)
  ∧ (∃ ts, (list_tasks inp ctx store).tasks = some ts
      ∧ ts.length = min inp.limit ((matchingTasks store uid inp.status).length - inp.offset)
      ∧ List.Sorted (fun a b : TaskOut => b.created_at ≤ a.created_at) ts)
  ∧ ((matchingTasks store uid inp.status).length = 0 →
      (list_tasks inp ctx store).tasks = some []) := by
  refine ⟨by simp [list_tasks, hctx, h0], by simp [list_tasks, hctx, h0],
    by simp [list_tasks, hctx, h0], by intro l' o'; simp [list_tasks, hctx, h0], ?_, ?_⟩
  · refine ⟨List.take inp.limit (List.drop inp.offset
        (List.map toTaskOut (List.insertionSort createdDesc (matchingTasks store uid inp.status)))),
      by simp [list_tasks, hctx, h0], ?_, ?_⟩
    · rw [List.length_take, List.length_drop, List.length_map, List.length_insertionSort]
    · have hs : List.Sorted createdDesc
          (List.insertionSort createdDesc (matchingTasks store uid inp.status)) :=
        List.sorted_insertionSort createdDesc _
      have hm : List.Pairwise (fun a b : TaskOut => b.created_at ≤ a.created_at)
          (List.map toTaskOut (List.insertionSort createdDesc (matchingTasks store uid inp.status))) := by
        rw [List.pairwise_map]
        exact hs
      have hsub : (List.take inp.limit (List.drop inp.offset
          (List.map toTaskOut
            (List.insertionSort createdDesc (matchingTasks store uid inp.status))))).Sublist
          (List.map toTaskOut (List.insertionSort createdDesc (matchingTasks store uid inp.status))) :=
        (List.take_sublist _ _).trans (List.drop_sublist _ _)
      exact hm.sublist hsub
  · intro hz
    have hnil : matchingTasks store uid inp.status = [] := List.length_eq_zero.mp hz
    simp [list_tasks, hctx, h0, hnil]

def demoListInp : ListTasksInput := { status := "incomplete", limit := 10, offset := 0 }

def demoStore : Store :=
  [{ id := 1, user_id := some 1, title := "a", description := none, completed := false,
     priority := "medium", category := none, due_date := none, created_at := 5, updated_at := 5 },
   { id := 2, user_id := some 1, title := "b", description := none, completed := false,
     priority := "low", category := none, due_date := none, created_at := 3, updated_at := 3 },
   { id := 3, user_id := some 1, title := "c", description := none, completed := false,
     priority := "high", category := none, due_date := none, created_at := 9, updated_at := 9 },
   { id := 4, user_id := some 1, title := "d", description := none, completed := true,
     priority := "medium", category := none, due_date := none, created_at := 1, updated_at := 1 },
   { id := 5, user_id := some 1, title := "e", description := none, completed := true,
     priority := "medium", category := none, due_date := none, created_at := 2, updated_at := 2 },
   { id := 6, user_id := some 2, title := "f", description := none, completed := false,
     priority := "medium", category := none, due_date := none, created_at := 8, updated_at := 8 }]

theorem list_tasks_pagination_witness :
    (list_tasks demoListInp (mkCtx 1 0) demoStore).total
      = some (matchingTasks demoStore 1 demoListInp.status).length
    ∧ (matchingTasks demoStore 1 demoListInp.status).length = 3 :=
  ⟨(list_tasks_pagination demoStore demoListInp (mkCtx 1 0) 1 rfl (by decide)
      (Or.inr (Or.inr rfl)) (by decide) (by decide)).2.2.1,
   by decide⟩

/-! Rate limiter -/

theorem runRequests_all_ok (rest : List Nat) : ∀ acc : List Nat,
    acc ≠ [] →
    acc.length + rest.length ≤ 30 →
    (∀ x ∈ acc ++ rest, ∀ y ∈ rest, y - x < 60) →
    runRequests (some acc) rest = (some (acc ++ rest), List.replicate rest.length true) := by
  induction rest with
  | nil => intro acc _ _ _; simp [runRequests]
  | cons t rest ih =>
    intro acc hne hlen hwin
    have hfilter : acc.filter (fun x => decide (t - x < 60)) = acc := by
      rw [List.filter_eq_self]
      intro a ha
      simpa using hwin a (List.mem_append_left _ ha) t (List.mem_cons_self _ _)
    have hlt : ¬ (30 ≤ acc.length) := by
      simp only [List.length_cons] at hlen
      omega
    have hchk : check_rate_limit (some acc) t = (some (acc ++ [t]), true) := by
      simp [check_rate_limit, hfilter, hlt]
    have hih := ih (acc ++ [t]) (by simp)
      (by simp only [List.length_append, List.length_cons, List.length_nil] at hlen ⊢; omega) ?_
    · simp only [runRequests, hchk, hih]
      simp [List.append_assoc, List.replicate_succ]
    · intro x hx y hy
      rcases List.mem_append.mp hx with hx1 | hx2
      · rcases List.mem_append.mp hx1 with hxa | hxt
        · exact hwin x (List.mem_append_left _ hxa) y (List.mem_cons_of_mem _ hy)
        · have : x = t := by simpa using hxt
          subst this
          exact hwin x (List.mem_append_right _ (List.mem_cons_self _ _)) y
            (List.mem_cons_of_mem _ hy)
      · exact hwin x (List.mem_append_right _ (List.mem_cons_of_mem _ hx2)) y
          (List.mem_cons_of_mem _ hy)

/-- C6: the rolling 60-second rate limiter.  Any K ≤ 30 requests inside
one 60-second window all succeed and are all recorded; with 30 timestamps
inside the window the next (31st) request is rejected and its timestamp is
not recorded; once every recorded timestamp is 60 seconds or older,
capacity is restored and the next request succeeds. -/
theorem rate_limiter_window :
    (∀ times : List Nat, times ≠ [] → times.length ≤ 30 →
      (∀ x ∈ times, ∀ y ∈ times, y - x < 60) →
      runRequests none times = (some times, List.replicate times.length true))
  ∧ (∀ (ts : List Nat) (t31 : Nat), ts.length = 30 →
      (∀ x ∈ ts, t31 - x < 60) →
      check_rate_limit (some ts) t31 = (some ts, false))
  ∧ (∀ (ts : List Nat) (tl : Nat), (∀ x ∈ ts, 60 ≤ tl - x) →
      check_rate_limit (some ts) tl = (some [tl], true)) := by
  refine ⟨?_, ?_, ?_⟩
  · intro times hne hlen hwin
    match times with
    | [] => exact absurd rfl hne
    | t :: rest =>
      have hchk : check_rate_limit none t = (some [t], true) := rfl
      have haux := runRequests_all_ok rest [t] (by simp)
        (by simp only [List.length_cons, List.length_nil] at hlen ⊢; omega) ?_
      · simp only [runRequests, hchk, haux]
        simp [List.replicate_succ]
      · intro x hx y hy
        exact hwin x (by simpa using hx) y (List.mem_cons_of_mem _ hy)
  · intro ts t31 hlen hwin
    have hfilter : ts.filter (fun x => decide (t31 - x < 60)) = ts := by
      rw [List.filter_eq_self]
      intro a ha
      simpa using hwin a ha
    simp [check_rate_limit, hfilter, hlen]
  · intro ts tl hwin
    have hfilter : ts.filter (fun x => decide (tl - x < 60)) = [] := by
      rw [List.filter_eq_nil_iff]
      intro a ha
      simpa using Nat.not_lt.mpr (hwin a ha)
    simp [check_rate_limit, hfilter]

theorem rate_limiter_window_witness :
    runRequests none (List.replicate 30 0)
      = (some (List.replicate 30 0), List.replicate 30 true)
    ∧ check_rate_limit (some (List.replicate 30 0)) 1 = (some (List.replicate 30 0), false)
    ∧ check_rate_limit (some [0]) 100 = (some [100], true) :=
  ⟨by
    have h := rate_limiter_window.1 (List.replicate 30 0) (by decide) (by decide) (by decide)
    simpa using h,
   rate_limiter_window.2.1 (List.replicate 30 0) 1 (by decide) (by decide),
   rate_limiter_window.2.2 [0] 100 (by decide)⟩

/-! Agent turn controller -/

theorem contentOrDefault_ne_empty (c : Option String) : contentOrDefault c ≠ "" := by
  match c with
  | none => decide
  | some s =>
    by_cases h : s = ""
    · simp [contentOrDefault, h]
    · simpa [contentOrDefault, h] using h

/-- C10: get_agent_response is total and its response is always a
non-empty string: with no configured client it returns the fixed
unavailability message; an exception from either reasoning-engine call
returns the fixed apology with an empty tool_calls list instead of
raising; a null or empty final content is replaced by the fixed
default. -/
theorem agent_response_total_and_nonempty
    (clientConfigured : Bool) (firstCall : Except String LLMResponse)
    (secondCall : List ChatMsg → Except String LLMResponse)
    (reg : Registry) (uid : Int) (now : Nat)
    (hist : List ChatMsg) (umsg : String) (store : Store) :
    (get_agent_response clientConfigured firstCall secondCall reg uid now hist umsg store).1.response
      ≠ ""
  ∧ (clientConfigured = false →
      get_agent_response clientConfigured firstCall secondCall reg uid now hist umsg store
        = ({ response := unavailableMsg, tool_calls := [],
             error := some "LLM API key not configured" }, store))
  ∧ (∀ e, firstCall = .error e → clientConfigured = true →
      get_agent_response clientConfigured firstCall secondCall reg uid now hist umsg store
        = ({ response := apologyMsg, tool_calls := [], error := some e }, store))
  ∧ (∀ am e, firstCall = .ok am → clientConfigured = true → am.tool_calls ≠ [] →
      secondCall (agentMessages hist umsg am
          (runToolCalls reg uid now am.tool_calls store).1) = .error e →
      (get_agent_response clientConfigured firstCall secondCall reg uid now hist umsg store).1
        = { response := apologyMsg, tool_calls := [], error := some e })
  ∧ (∀ am, firstCall = .ok am → clientConfigured = true → am.tool_calls = [] →
      (am.content = none ∨ am.content = some "") →
      (get_agent_response clientConfigured firstCall secondCall reg uid now hist umsg store).1.response
        = "I\x27m here to help with your tasks!") := by
  refine ⟨?_, ?_, ?_, ?_, ?_⟩
  · cases clientConfigured with
    | false =>
      have h : unavailableMsg ≠ "" := by decide
      simpa [get_agent_response] using h
    | true =>
      cases firstCall with
      | error e =>
        have h : apologyMsg ≠ "" := by decide
        simpa [get_agent_response] using h
      | ok am =>
        cases ham : am.tool_calls with
        | nil => simp [get_agent_response, ham]; exact contentOrDefault_ne_empty _
        | cons tc rest =>
          simp only [get_agent_response, ham, Bool.not_true]
          cases hsc : secondCall (agentMessages hist umsg am
              (runToolCalls reg uid now (tc :: rest) store).1) with
          | error e =>
            have h : apologyMsg ≠ "" := by decide
            simpa [hsc] using h
          | ok fin => simp [hsc]; exact contentOrDefault_ne_empty _
  · intro h; subst h; rfl
  · intro e h hc; subst h; subst hc; rfl
  · intro am e h hc hne hsc
    subst h; subst hc
    match ham : am.tool_calls, hne with
    | tc :: rest, _ =>
      rw [ham] at hsc
      simp only [get_agent_response, Bool.not_true, ham]
      simp [hsc]
  · intro am h hc hnil hcontent
    subst h; subst hc
    simp only [get_agent_response, Bool.not_true, hnil]
    rcases hcontent with h1 | h1 <;> simp [h1, contentOrDefault]

def okSecond : List ChatMsg → Except String LLMResponse := fun _ => .ok ⟨some "done", []⟩

theorem agent_response_total_and_nonempty_witness :
    get_agent_response true (.error "network down") okSecond [] 1 0 [] "hi" []
      = ({ response := apologyMsg, tool_calls := [], error := some "network down" }, []) :=
  (agent_response_total_and_nonempty true (.error "network down") okSecond [] 1 0 [] "hi"
    []).2.2.1 "network down" rfl rfl

theorem runToolCalls_names (reg : Registry) (uid : Int) (now : Nat) :
    ∀ (calls : List ToolCallReq) (store : Store),
      ((runToolCalls reg uid now calls store).1).map AuditEntry.tool_name
        = calls.map ToolCallReq.name := by
  intro calls
  induction calls with
  | nil => intro store; rfl
  | cons tc rest ih => intro store; simp [runToolCalls, ih]

/-- C4 (amended): in every turn that completes without a
reasoning-engine exception, the returned audit list is exactly the tool
calls requested by the first response, dispatched sequentially in the
order requested (their names, in order, are the requested names); the
second reasoning-engine call never causes any tool execution — the final
store is determined by the first response's calls alone, whatever the
second call returns, including when it raises.  The unamended claim fails
only on the exception path, see the counterexample. -/
theorem single_round_tool_use (secondCall : List ChatMsg → Except String LLMResponse)
    (reg : Registry) (uid : Int) (now : Nat) (hist : List ChatMsg) (umsg : String)
    (store : Store) (am : LLMResponse) :
    ((runToolCalls reg uid now am.tool_calls store).1.map AuditEntry.tool_name
      = am.tool_calls.map ToolCallReq.name)
  ∧ (am.tool_calls = [] →
      get_agent_response true (.ok am) secondCall reg uid now hist umsg store
        = ({ response := contentOrDefault am.content, tool_calls := [], error := none }, store))
  ∧ (∀ fin, am.tool_calls ≠ [] →
      secondCall (agentMessages hist umsg am
          (runToolCalls reg uid now am.tool_calls store).1) = .ok fin →
      get_agent_response true (.ok am) secondCall reg uid now hist umsg store
        = ({ response := contentOrDefault fin.content,
             tool_calls := (runToolCalls reg uid now am.tool_calls store).1, error := none },
           (runToolCalls reg uid now am.tool_calls store).2))
  ∧ (∀ e, am.tool_calls ≠ [] →
      secondCall (agentMessages hist umsg am
          (runToolCalls reg uid now am.tool_calls store).1) = .error e →
      (get_agent_response true (.ok am) secondCall reg uid now hist umsg store).2
        = (runToolCalls reg uid now am.tool_calls store).2) := by
  refine ⟨runToolCalls_names reg uid now am.tool_calls store, ?_, ?_, ?_⟩
  · intro hnil
    simp [get_agent_response, hnil]
  · intro fin hne hsc
    match ham : am.tool_calls, hne with
    | tc :: rest, _ =>
      rw [ham] at hsc
      simp only [get_agent_response, Bool.not_true, ham]
      simp [hsc]
  · intro e hne hsc
    match ham : am.tool_calls, hne with
    | tc :: rest, _ =>
      rw [ham] at hsc
      simp only [get_agent_response, Bool.not_true, ham]
      simp [hsc]

def okHandler : Handler := fun _ _ st => (.ok { success := true }, st)

def demoReg : Registry := register_tool [] "t" "d" "s" okHandler

def failingSecond : List ChatMsg → Except String LLMResponse := fun _ => .error "boom"

def demoReq : ToolCallReq := { id := "1", name := "t", rawArguments := some {} }

/-- C4 counterexample: the requested call is dispatched (the internal audit
names it) yet the returned tool-call list is empty when the second
reasoning-engine call raises. -/
theorem audit_dropped_on_second_call_error :
    (runToolCalls demoReg 1 0 [demoReq] []).1.map AuditEntry.tool_name = ["t"]
    ∧ (get_agent_response true (.ok ⟨none, [demoReq]⟩) failingSecond demoReg 1 0 []
        "hi" []).1.tool_calls = [] := by
  constructor <;> rfl

theorem single_round_tool_use_witness :
    get_agent_response true (.ok ⟨none, [demoReq]⟩) okSecond demoReg 1 0 [] "hi" []
      = ({ response := contentOrDefault (some "done"),
           tool_calls := (runToolCalls demoReg 1 0 [demoReq] []).1, error := none },
         (runToolCalls demoReg 1 0 [demoReq] []).2) :=
  (single_round_tool_use okSecond demoReg 1 0 [] "hi" [] ⟨none, [demoReq]⟩).2.2.1
    ⟨some "done", []⟩ (by decide) rfl

def demoCompleteReg (now : Nat) : Registry :=
  register_tool [] "complete_task"
    "Mark a task as complete or incomplete. Requires task_id and a boolean for completed status."
    "CompleteTaskInput" (complete_task_wrapper now)

def invalidInputRes : ToolResult :=
  { success := false, error := some ("Invalid input: " ++ "Field required") }

/-- C7: a tool call whose argument payload fails to parse as JSON does
not abort the turn: the tool is dispatched with an empty argument dict,
the wrapper's input validation produces a structured success=false result
whose error starts with "Invalid input: ", the store is untouched, the
entry is recorded in the audit, fed back to the model in a tool message,
and the turn still returns error=none with the second call's reply. -/
theorem malformed_tool_args_degrade (secondCall : List ChatMsg → Except String LLMResponse)
    (hist : List ChatMsg) (umsg : String) (store : Store) (fin : LLMResponse)
    (uid : Int) (now : Nat) (tcid : String)
    (hsc : secondCall (agentMessages hist umsg ⟨none, [⟨tcid, "complete_task", none⟩]⟩
        [⟨"complete_task", invalidInputRes⟩]) = .ok fin) :
    execute_tool (demoCompleteReg now) "complete_task" {} (mkCtx uid now) store
      = (invalidInputRes, store)
  ∧ runToolCalls (demoCompleteReg now) uid now [⟨tcid, "complete_task", none⟩] store
      = ([⟨"complete_task", invalidInputRes⟩], store)
  ∧ get_agent_response true (.ok ⟨none, [⟨tcid, "complete_task", none⟩]⟩) secondCall
      (demoCompleteReg now) uid now hist umsg store
      = ({ response := contentOrDefault fin.content,
           tool_calls := [⟨"complete_task", invalidInputRes⟩], error := none }, store)
  ∧ invalidInputRes.success = false
  ∧ invalidInputRes.error = some ("Invalid input: " ++ "Field required")
  ∧ ("Invalid input: ".data).isPrefixOf ("Invalid input: Field required".data) = true
  ∧ ChatMsg.tool tcid invalidInputRes ∈ agentMessages hist umsg
      ⟨none, [⟨tcid, "complete_task", none⟩]⟩ [⟨"complete_task", invalidInputRes⟩] := by
  have hrun : runToolCalls (demoCompleteReg now) uid now [⟨tcid, "complete_task", none⟩] store
      = ([⟨"complete_task", invalidInputRes⟩], store) := rfl
  refine ⟨rfl, hrun, ?_, rfl, rfl, by decide, ?_⟩
  · simp only [get_agent_response, Bool.not_true]
    simp [hrun, hsc]
  · simp [agentMessages]

theorem malformed_tool_args_degrade_witness :
    get_agent_response true (.ok ⟨none, [⟨"1", "complete_task", none⟩]⟩) okSecond
      (demoCompleteReg 0) 1 0 [] "hi" []
      = ({ response := contentOrDefault (some "done"),
           tool_calls := [⟨"complete_task", invalidInputRes⟩], error := none }, []) :=
  (malformed_tool_args_degrade okSecond [] "hi" [] ⟨some "done", []⟩ 1 0 "1" rfl).2.2.1

/-! Chat endpoint: timeout and rollback -/

/-- C1 (amended): when the 30-second whole-turn deadline fires before the
agent replies, the chat turn reports the distinct gateway-timeout error
(code AGENT_TIMEOUT, HTTP 504) and the session is rolled back: the
committed database is exactly the one from before the turn, so neither
the user message nor an assistant message is persisted.  (Only the
rate-limit bookkeeping, process state outside the session, survives.)
The unamended claim asserts the user message persists; the counterexample
refutes that. -/
theorem chat_timeout_rolls_back (db : Db) (uid : Int) (message : String)
    (convParam : ConvIdParam) (rl : Option (List Nat)) (now : Nat) (newConvId : Int)
    (hrl : (check_rate_limit rl now).2 = true)
    (hmsg : pyStrip message ≠ "")
    (hconv : convParam = ConvIdParam.missing ∨
      ∃ cid conv, convParam = ConvIdParam.valid cid ∧
        db.convs.find? (fun c => c.id == cid && c.user_id == some uid) = some conv) :
    send_chat_message db uid message convParam rl now newConvId AgentOutcome.timeout
      = (.err "AGENT_TIMEOUT" 504
          "The AI assistant is taking too long to respond. Please try again later.",
         db, (check_rate_limit rl now).1) := by
  rcases hconv with h | ⟨cid, conv, h, hfind⟩
  · subst h
    simp [send_chat_message, hrl, hmsg, finishTurn]
  · subst h
    simp [send_chat_message, hrl, hmsg, hfind, finishTurn]

/-- C1 counterexample: after a timed-out turn the message table is empty —
the user message of the turn was rolled back, not persisted, even though
the distinct gateway-timeout error was reported. -/
theorem chat_timeout_counterexample :
    (send_chat_message ⟨[], []⟩ 1 "hello" ConvIdParam.missing none 0 7 AgentOutcome.timeout).1
      = ChatOutcome.err "AGENT_TIMEOUT" 504
          "The AI assistant is taking too long to respond. Please try again later."
    ∧ (send_chat_message ⟨[], []⟩ 1 "hello" ConvIdParam.missing none 0 7
        AgentOutcome.timeout).2.1.msgs = [] := by
  constructor <;> rfl

theorem chat_timeout_rolls_back_witness :
    send_chat_message ⟨[], []⟩ 1 "hello" ConvIdParam.missing none 0 7 AgentOutcome.timeout
      = (.err "AGENT_TIMEOUT" 504
          "The AI assistant is taking too long to respond. Please try again later.",
         ⟨[], []⟩, (check_rate_limit none 0).1) :=
  chat_timeout_rolls_back ⟨[], []⟩ 1 "hello" ConvIdParam.missing none 0 7 rfl
    (by decide) (Or.inl rfl)
